import Mathlib

/-
Verification of the clinical decision support module
(ContextAwareMedicationAllergyAlerts.py): a shallow embedding of its
knowledge tables, the four rule checkers and the alert aggregator,
together with theorems about the alerts they emit.

Python dicts preserve insertion order, so each knowledge table is
embedded as an association list in the order the source writes it; dict
membership plus indexing becomes List.lookup.  Python f-strings become
explicit string concatenation, and str.upper on the ASCII severity
labels becomes a character map.
-/

namespace ClinicalAlerts

/-- Python str.upper, restricted to the ASCII strings the tables store:
upper-case every character. -/
def pyUpper (s : String) : String :=
  String.mk (s.data.map Char.toUpper)

/-- Value of one medication entry in GENETIC_ALERTS. -/
structure GeneticEntry where
  severity : String
  recommendation : String
  deriving DecidableEq, Repr

/-- Value of one allergen entry in ALLERGY_ALERTS. -/
structure AllergyEntry where
  medications : List String
  severity : String
  cross_reactivity : List String
  deriving DecidableEq, Repr

/-- Value of one pair entry in DRUG_INTERACTIONS. -/
structure InteractionEntry where
  severity : String
  warning : String
  recommendation : String
  deriving DecidableEq, Repr

/-- Value of one condition entry in COMORBIDITY_ALERTS. -/
structure ComorbidityEntry where
  medications : List String
  severity : String
  recommendation : String
  deriving DecidableEq, Repr

/-- Entry for clopidogrel under the CYP2C19 marker. -/
def cypClopidogrel : GeneticEntry :=
  ⟨"high", "Consider alternative antiplatelet therapy (e.g., prasugrel, ticagrelor)."⟩

/-- Entry for abacavir under the HLA marker. -/
def hlaAbacavir : GeneticEntry :=
  ⟨"critical", "Contraindicated. Do not prescribe abacavir."⟩

/-- Inner table of the CYP2C19 Poor Metabolizer marker. -/
def cypTable : List (String × GeneticEntry) :=
  [("clopidogrel", cypClopidogrel)]

/-- Inner table of the HLA-B*5701 Positive marker. -/
def hlaTable : List (String × GeneticEntry) :=
  [("abacavir", hlaAbacavir)]

/-- The GENETIC_ALERTS table of the source, in its insertion order. -/
def GENETIC_ALERTS : List (String × List (String × GeneticEntry)) :=
  [("CYP2C19 Poor Metabolizer", cypTable),
   ("HLA-B*5701 Positive", hlaTable)]

/-- The penicillin entry of ALLERGY_ALERTS. -/
def penicillinEntry : AllergyEntry :=
  ⟨["amoxicillin", "ampicillin", "penicillin"], "high", ["cephalosporins"]⟩

/-- The sulfa entry of ALLERGY_ALERTS. -/
def sulfaEntry : AllergyEntry :=
  ⟨["sulfamethoxazole", "sulfasalazine"], "moderate", []⟩

/-- The ALLERGY_ALERTS table of the source, in its insertion order. -/
def ALLERGY_ALERTS : List (String × AllergyEntry) :=
  [("penicillin", penicillinEntry),
   ("sulfa", sulfaEntry)]

/-- The warfarin and amiodarone interaction entry. -/
def warfarinAmiodarone : InteractionEntry :=
  ⟨"high", "Increased bleeding risk", "Monitor INR closely and adjust warfarin dose as needed."⟩

/-- The simvastatin and clarithromycin interaction entry. -/
def simvastatinClarithromycin : InteractionEntry :=
  ⟨"critical", "Risk of rhabdomyolysis", "Avoid combination; consider alternative statin or antibiotic."⟩

/-- The DRUG_INTERACTIONS table of the source, in its insertion order. -/
def DRUG_INTERACTIONS : List ((String × String) × InteractionEntry) :=
  [(("warfarin", "amiodarone"), warfarinAmiodarone),
   (("simvastatin", "clarithromycin"), simvastatinClarithromycin)]

/-- The chronic kidney disease entry of COMORBIDITY_ALERTS. -/
def ckdEntry : ComorbidityEntry :=
  ⟨["metformin", "NSAIDs"], "high", "Avoid or adjust dose; monitor renal function."⟩

/-- The elderly entry of COMORBIDITY_ALERTS. -/
def elderlyEntry : ComorbidityEntry :=
  ⟨["benzodiazepines", "anticholinergics"], "moderate", "Use with caution; increased risk of falls and confusion."⟩

/-- The COMORBIDITY_ALERTS table of the source, in its insertion order. -/
def COMORBIDITY_ALERTS : List (String × ComorbidityEntry) :=
  [("chronic_kidney_disease", ckdEntry),
   ("elderly", elderlyEntry)]

/-- The f-string built inside check_genetic_alerts. -/
def fmtGeneticAlert (marker med : String) (info : GeneticEntry) : String :=
  "[" ++ pyUpper info.severity ++ "] Genetic alert: " ++ marker ++ " affects " ++ med ++
    ". Recommendation: " ++ info.recommendation

/-- The direct-allergy f-string built inside check_allergy_alerts. -/
def fmtAllergyAlert (allergy med : String) (info : AllergyEntry) : String :=
  "[" ++ pyUpper info.severity ++ "] Allergy alert: " ++ allergy ++ " allergy - avoid " ++ med ++ "."

/-- The cross-reactivity f-string built inside check_allergy_alerts. -/
def fmtCrossAlert (allergy med : String) : String :=
  "[MODERATE] Cross-reactivity alert: " ++ allergy ++ " allergy may cross-react with " ++ med ++ "."

/-- The f-string built inside check_drug_interactions. -/
def fmtInteractionAlert (drug1 drug2 : String) (info : InteractionEntry) : String :=
  "[" ++ pyUpper info.severity ++ "] Interaction alert: " ++ drug1 ++ " + " ++ drug2 ++ " - " ++
    info.warning ++ ". Recommendation: " ++ info.recommendation

/-- The comorbidity f-string built inside check_comorbidity_alerts. -/
def fmtComorbidityAlert (comorb med : String) (info : ComorbidityEntry) : String :=
  "[" ++ pyUpper info.severity ++ "] Comorbidity alert: " ++ comorb ++ " with " ++ med ++
    ". Recommendation: " ++ info.recommendation

/-- The age f-string built inside check_comorbidity_alerts. -/
def fmtAgeAlert (med : String) (info : ComorbidityEntry) : String :=
  "[" ++ pyUpper info.severity ++ "] Age alert: Elderly patient with " ++ med ++
    ". Recommendation: " ++ info.recommendation

/-- check_genetic_alerts of the source: for each marker found in
GENETIC_ALERTS, for each medication keyed under that marker, append one
genetic alert. -/
def check_genetic_alerts (genetic_info medications : List String) : List String :=
  genetic_info.flatMap fun marker =>
    match GENETIC_ALERTS.lookup marker with
    | some entry =>
      medications.flatMap fun med =>
        match entry.lookup med with
        | some info => [fmtGeneticAlert marker med info]
        | none => []
    | none => []

/-- check_allergy_alerts of the source: for each allergy found in
ALLERGY_ALERTS, for each medication, append a direct allergy alert when
the medication is in the entry's medications list, and independently a
cross-reactivity alert when it is in the entry's cross_reactivity
list. -/
def check_allergy_alerts (allergies medications : List String) : List String :=
  allergies.flatMap fun allergy =>
    match ALLERGY_ALERTS.lookup allergy with
    | some allergy_info =>
      medications.flatMap fun med =>
        (if allergy_info.medications.contains med then [fmtAllergyAlert allergy med allergy_info]
         else []) ++
        (if allergy_info.cross_reactivity.contains med then [fmtCrossAlert allergy med]
         else [])
    | none => []

/-- check_drug_interactions of the source: iterate the stored pairs in
table order and alert when both drugs are present.  The source tests
membership in set(medications); membership in the set and in the list
coincide, so the embedding tests the list. -/
def check_drug_interactions (medications : List String) : List String :=
  DRUG_INTERACTIONS.flatMap fun pair =>
    if medications.contains pair.1.1 && medications.contains pair.1.2 then
      [fmtInteractionAlert pair.1.1 pair.1.2 pair.2]
    else []

/-- The comorbidity loop of check_comorbidity_alerts: for each patient
comorbidity found in COMORBIDITY_ALERTS, for each medication in that
entry's medications list, append one comorbidity alert. -/
def comorbidityPhase (comorbidities medications : List String) : List String :=
  comorbidities.flatMap fun comorb =>
    match COMORBIDITY_ALERTS.lookup comorb with
    | some info =>
      medications.flatMap fun med =>
        if info.medications.contains med then [fmtComorbidityAlert comorb med info]
        else []
    | none => []

/-- The age block of check_comorbidity_alerts: when age is at least 65,
look up the key elderly and append one age alert per listed
medication. -/
def agePhase (medications : List String) (age : Int) : List String :=
  if 65 ≤ age then
    match COMORBIDITY_ALERTS.lookup "elderly" with
    | some elderly_info =>
      medications.flatMap fun med =>
        if elderly_info.medications.contains med then [fmtAgeAlert med elderly_info]
        else []
    | none => []
  else []

/-- check_comorbidity_alerts of the source: the comorbidity loop over
the patient's comorbidity list, then the age block. -/
def check_comorbidity_alerts (comorbidities medications : List String) (age : Int) :
    List String :=
  comorbidityPhase comorbidities medications ++ agePhase medications age

/-- A patient record: every field optional, as in the source, where
patient.get supplies a default for an absent key. -/
structure Patient where
  genetic_info : Option (List String) := none
  allergies : Option (List String) := none
  medications : Option (List String) := none
  comorbidities : Option (List String) := none
  age : Option Int := none

/-- generate_contextual_alerts of the source: extract each field with
its default and concatenate the four checkers' outputs in their fixed
order. -/
def generate_contextual_alerts (patient : Patient) : List String :=
  check_genetic_alerts (patient.genetic_info.getD []) (patient.medications.getD []) ++
  check_allergy_alerts (patient.allergies.getD []) (patient.medications.getD []) ++
  check_drug_interactions (patient.medications.getD []) ++
  check_comorbidity_alerts (patient.comorbidities.getD []) (patient.medications.getD [])
    (patient.age.getD 0)

/-- The sample patient of the source's main block. -/
def samplePatient : Patient :=
  { genetic_info := some ["CYP2C19 Poor Metabolizer"],
    allergies := some ["penicillin"],
    medications := some ["clopidogrel", "amoxicillin", "warfarin", "amiodarone", "benzodiazepines"],
    comorbidities := some ["chronic_kidney_disease"],
    age := some 70 }

/-- The genetic alert for clopidogrel under the CYP2C19 marker. -/
def gAlertCYP : String :=
  "[HIGH] Genetic alert: CYP2C19 Poor Metabolizer affects clopidogrel. Recommendation: Consider alternative antiplatelet therapy (e.g., prasugrel, ticagrelor)."

/-- The genetic alert for abacavir under the HLA marker. -/
def gAlertHLA : String :=
  "[CRITICAL] Genetic alert: HLA-B*5701 Positive affects abacavir. Recommendation: Contraindicated. Do not prescribe abacavir."

/-- The direct allergy alert for amoxicillin under penicillin. -/
def aAlertPenAmox : String :=
  "[HIGH] Allergy alert: penicillin allergy - avoid amoxicillin."

/-- The cross-reactivity alert for cephalosporins under penicillin. -/
def xAlertPenCeph : String :=
  "[MODERATE] Cross-reactivity alert: penicillin allergy may cross-react with cephalosporins."

/-- The interaction alert for warfarin with amiodarone. -/
def iAlertWA : String :=
  "[HIGH] Interaction alert: warfarin + amiodarone - Increased bleeding risk. Recommendation: Monitor INR closely and adjust warfarin dose as needed."

/-- The interaction alert for simvastatin with clarithromycin. -/
def iAlertSC : String :=
  "[CRITICAL] Interaction alert: simvastatin + clarithromycin - Risk of rhabdomyolysis. Recommendation: Avoid combination; consider alternative statin or antibiotic."

/-- The comorbidity alert for metformin under chronic kidney disease. -/
def cAlertCkdMet : String :=
  "[HIGH] Comorbidity alert: chronic_kidney_disease with metformin. Recommendation: Avoid or adjust dose; monitor renal function."

/-- The age alert for benzodiazepines. -/
def ageAlertBenzo : String :=
  "[MODERATE] Age alert: Elderly patient with benzodiazepines. Recommendation: Use with caution; increased risk of falls and confusion."

/-- The age alert for anticholinergics. -/
def ageAlertAnti : String :=
  "[MODERATE] Age alert: Elderly patient with anticholinergics. Recommendation: Use with caution; increased risk of falls and confusion."

/-- The comorbidity alert for benzodiazepines under an explicit elderly comorbidity. -/
def cAlertEldBenzo : String :=
  "[MODERATE] Comorbidity alert: elderly with benzodiazepines. Recommendation: Use with caution; increased risk of falls and confusion."

lemma genetic_lookup_cases (m : String) :
    (m = "CYP2C19 Poor Metabolizer" ∧ GENETIC_ALERTS.lookup m = some cypTable) ∨
    (m = "HLA-B*5701 Positive" ∧ GENETIC_ALERTS.lookup m = some hlaTable) ∨
    (m ≠ "CYP2C19 Poor Metabolizer" ∧ m ≠ "HLA-B*5701 Positive" ∧
      GENETIC_ALERTS.lookup m = none) := by
  by_cases h1 : m = "CYP2C19 Poor Metabolizer"
  · subst h1; left; exact ⟨rfl, rfl⟩
  · by_cases h2 : m = "HLA-B*5701 Positive"
    · subst h2; right; left; exact ⟨rfl, rfl⟩
    · right; right
      refine ⟨h1, h2, ?_⟩
      simp [GENETIC_ALERTS, List.lookup, beq_eq_false_iff_ne.mpr h1, beq_eq_false_iff_ne.mpr h2]

lemma allergy_lookup_cases (a : String) :
    (a = "penicillin" ∧ ALLERGY_ALERTS.lookup a = some penicillinEntry) ∨
    (a = "sulfa" ∧ ALLERGY_ALERTS.lookup a = some sulfaEntry) ∨
    (a ≠ "penicillin" ∧ a ≠ "sulfa" ∧ ALLERGY_ALERTS.lookup a = none) := by
  by_cases h1 : a = "penicillin"
  · subst h1; left; exact ⟨rfl, rfl⟩
  · by_cases h2 : a = "sulfa"
    · subst h2; right; left; exact ⟨rfl, rfl⟩
    · right; right
      refine ⟨h1, h2, ?_⟩
      simp [ALLERGY_ALERTS, List.lookup, beq_eq_false_iff_ne.mpr h1, beq_eq_false_iff_ne.mpr h2]

lemma comorbidity_lookup_cases (c : String) :
    (c = "chronic_kidney_disease" ∧ COMORBIDITY_ALERTS.lookup c = some ckdEntry) ∨
    (c = "elderly" ∧ COMORBIDITY_ALERTS.lookup c = some elderlyEntry) ∨
    (c ≠ "chronic_kidney_disease" ∧ c ≠ "elderly" ∧ COMORBIDITY_ALERTS.lookup c = none) := by
  by_cases h1 : c = "chronic_kidney_disease"
  · subst h1; left; exact ⟨rfl, rfl⟩
  · by_cases h2 : c = "elderly"
    · subst h2; right; left; exact ⟨rfl, rfl⟩
    · right; right
      refine ⟨h1, h2, ?_⟩
      simp [COMORBIDITY_ALERTS, List.lookup, beq_eq_false_iff_ne.mpr h1,
        beq_eq_false_iff_ne.mpr h2]

lemma cyp_lookup_inv (med : String) (info : GeneticEntry)
    (h : cypTable.lookup med = some info) :
    med = "clopidogrel" ∧ info = cypClopidogrel := by
  by_cases h1 : med = "clopidogrel"
  · subst h1
    simp [cypTable, List.lookup] at h
    exact ⟨rfl, h.symm⟩
  · simp [cypTable, List.lookup, beq_eq_false_iff_ne.mpr h1] at h

lemma hla_lookup_inv (med : String) (info : GeneticEntry)
    (h : hlaTable.lookup med = some info) :
    med = "abacavir" ∧ info = hlaAbacavir := by
  by_cases h1 : med = "abacavir"
  · subst h1
    simp [hlaTable, List.lookup] at h
    exact ⟨rfl, h.symm⟩
  · simp [hlaTable, List.lookup, beq_eq_false_iff_ne.mpr h1] at h

lemma check_genetic_alerts_nil_meds (gi : List String) :
    check_genetic_alerts gi [] = [] := by
  induction gi with
  | nil => rfl
  | cons m t ih =>
    rw [check_genetic_alerts, List.flatMap_cons]
    rw [check_genetic_alerts] at ih
    rw [ih, List.append_nil]
    cases GENETIC_ALERTS.lookup m <;> rfl

lemma check_allergy_alerts_nil_meds (al : List String) :
    check_allergy_alerts al [] = [] := by
  induction al with
  | nil => rfl
  | cons a t ih =>
    rw [check_allergy_alerts, List.flatMap_cons]
    rw [check_allergy_alerts] at ih
    rw [ih, List.append_nil]
    cases ALLERGY_ALERTS.lookup a <;> rfl

lemma check_drug_interactions_nil_meds : check_drug_interactions [] = [] := rfl

lemma comorbidityPhase_nil_meds (com : List String) :
    comorbidityPhase com [] = [] := by
  induction com with
  | nil => rfl
  | cons c t ih =>
    rw [comorbidityPhase, List.flatMap_cons]
    rw [comorbidityPhase] at ih
    rw [ih, List.append_nil]
    cases COMORBIDITY_ALERTS.lookup c <;> rfl

lemma agePhase_nil_meds (age : Int) : agePhase [] age = [] := by
  rw [agePhase]
  by_cases ha : (65 : Int) ≤ age
  · simp only [if_pos ha]
    cases COMORBIDITY_ALERTS.lookup "elderly" <;> rfl
  · simp [ha]

lemma check_comorbidity_alerts_nil_meds (com : List String) (age : Int) :
    check_comorbidity_alerts com [] age = [] := by
  rw [check_comorbidity_alerts, comorbidityPhase_nil_meds, agePhase_nil_meds]
  rfl

/-- C9: for a patient with an empty medication list, each of the four
checkers returns an empty list, whatever the markers, allergies,
comorbidities and age are. -/
theorem empty_medications_all_checkers_empty :
    ∀ (gi al com : List String) (age : Int),
      check_genetic_alerts gi [] = [] ∧
      check_allergy_alerts al [] = [] ∧
      check_drug_interactions [] = [] ∧
      check_comorbidity_alerts com [] age = [] := by
  intro gi al com age
  exact ⟨check_genetic_alerts_nil_meds gi, check_allergy_alerts_nil_meds al,
    check_drug_interactions_nil_meds, check_comorbidity_alerts_nil_meds com age⟩

/-- C8: generate_contextual_alerts is exactly the concatenation, in the
fixed order genetic, allergy, interaction, comorbidity and age, of the
four checkers applied to the record fields with empty or zero defaults
for absent fields; a record with every field absent yields no alerts. -/
theorem aggregator_is_ordered_concatenation :
    (∀ p : Patient,
      generate_contextual_alerts p =
        check_genetic_alerts (p.genetic_info.getD []) (p.medications.getD []) ++
        check_allergy_alerts (p.allergies.getD []) (p.medications.getD []) ++
        check_drug_interactions (p.medications.getD []) ++
        check_comorbidity_alerts (p.comorbidities.getD []) (p.medications.getD [])
          (p.age.getD 0)) ∧
    generate_contextual_alerts ⟨none, none, none, none, none⟩ = [] := by
  constructor
  · intro p; rfl
  · show check_genetic_alerts [] [] ++ check_allergy_alerts [] [] ++
      check_drug_interactions [] ++ check_comorbidity_alerts [] [] 0 = []
    rw [check_genetic_alerts_nil_meds, check_allergy_alerts_nil_meds,
      check_drug_interactions_nil_meds, check_comorbidity_alerts_nil_meds]
    rfl

/-- C3 counterexample: on the sample patient of the source, the
aggregator returns four alerts, not five. -/
theorem samplePatient_not_five_alerts :
    ¬ (generate_contextual_alerts samplePatient).length = 5 := by decide

/-- C3 (amended): on the sample patient of the source, the aggregator
returns exactly four alerts, in order: the HIGH genetic alert for
clopidogrel, the HIGH allergy alert for amoxicillin, the HIGH
interaction alert for warfarin with amiodarone, and the MODERATE age
alert for benzodiazepines, with no comorbidity alert. -/
theorem samplePatient_alerts :
    generate_contextual_alerts samplePatient =
      [gAlertCYP, aAlertPenAmox, iAlertWA, ageAlertBenzo] := by decide

lemma check_drug_interactions_eq (meds : List String) :
    check_drug_interactions meds =
      (if meds.contains "warfarin" && meds.contains "amiodarone" then [iAlertWA] else []) ++
      ((if meds.contains "simvastatin" && meds.contains "clarithromycin" then [iAlertSC]
        else []) ++ []) := rfl

/-- C1: for each stored interaction pair, check_drug_interactions emits
exactly one alert for that pair when both drugs appear in the patient's
medications and zero alerts when at most one does, and its output is
invariant under permutation of the medication list, since membership is
set-like. -/
theorem interaction_pair_matching :
    ∀ meds : List String,
      ((check_drug_interactions meds).count iAlertWA =
        if "warfarin" ∈ meds ∧ "amiodarone" ∈ meds then 1 else 0) ∧
      ((check_drug_interactions meds).count iAlertSC =
        if "simvastatin" ∈ meds ∧ "clarithromycin" ∈ meds then 1 else 0) ∧
      ∀ meds' : List String, meds.Perm meds' →
        check_drug_interactions meds = check_drug_interactions meds' := by
  intro meds
  have hne : iAlertWA ≠ iAlertSC := by simp [iAlertWA, iAlertSC]
  refine ⟨?_, ?_, ?_⟩
  · rw [check_drug_interactions_eq]
    by_cases hw : "warfarin" ∈ meds <;> by_cases ha : "amiodarone" ∈ meds <;>
      by_cases hs : "simvastatin" ∈ meds <;> by_cases hc : "clarithromycin" ∈ meds <;>
      simp [hw, ha, hs, hc, List.count_append, List.count_cons, hne, Ne.symm hne]
  · rw [check_drug_interactions_eq]
    by_cases hw : "warfarin" ∈ meds <;> by_cases ha : "amiodarone" ∈ meds <;>
      by_cases hs : "simvastatin" ∈ meds <;> by_cases hc : "clarithromycin" ∈ meds <;>
      simp [hw, ha, hs, hc, List.count_append, List.count_cons, hne, Ne.symm hne]
  · intro meds' hp
    have hcont : ∀ x : String, meds.contains x = meds'.contains x := by
      intro x; simp [hp.mem_iff]
    rw [check_drug_interactions_eq, check_drug_interactions_eq, hcont, hcont, hcont, hcont]

/-- C1 witness: at a concrete input, the warfarin and amiodarone pair
alert fires once, and reversing the two drugs leaves the output
unchanged. -/
theorem interaction_pair_matching_witness :
    check_drug_interactions ["amiodarone", "warfarin"] =
      check_drug_interactions ["warfarin", "amiodarone"] :=
  (interaction_pair_matching ["amiodarone", "warfarin"]).2.2 ["warfarin", "amiodarone"]
    (by decide)

lemma cyp_lookup_none {med : String} (h : med ≠ "clopidogrel") :
    cypTable.lookup med = none := by
  simp [cypTable, List.lookup, beq_eq_false_iff_ne.mpr h]

lemma hla_lookup_none {med : String} (h : med ≠ "abacavir") :
    hlaTable.lookup med = none := by
  simp [hlaTable, List.lookup, beq_eq_false_iff_ne.mpr h]

lemma count_inner_cyp (meds : List String) :
    ((meds.flatMap fun med =>
      match cypTable.lookup med with
      | some info => [fmtGeneticAlert "CYP2C19 Poor Metabolizer" med info]
      | none => []).count gAlertCYP) = meds.count "clopidogrel" := by
  have e : fmtGeneticAlert "CYP2C19 Poor Metabolizer" "clopidogrel" cypClopidogrel =
      gAlertCYP := rfl
  have hl : cypTable.lookup "clopidogrel" = some cypClopidogrel := rfl
  induction meds with
  | nil => rfl
  | cons med t ih =>
    rw [List.flatMap_cons, List.count_append, ih, List.count_cons]
    by_cases h : med = "clopidogrel"
    · subst h
      simp only [hl, e]
      simp
      omega
    · rw [cyp_lookup_none h]
      simp [h]

lemma count_inner_hla_cyp_zero (meds : List String) :
    ((meds.flatMap fun med =>
      match hlaTable.lookup med with
      | some info => [fmtGeneticAlert "HLA-B*5701 Positive" med info]
      | none => []).count gAlertCYP) = 0 := by
  have e : fmtGeneticAlert "HLA-B*5701 Positive" "abacavir" hlaAbacavir = gAlertHLA := rfl
  have hl : hlaTable.lookup "abacavir" = some hlaAbacavir := rfl
  have hne : gAlertHLA ≠ gAlertCYP := by simp [gAlertHLA, gAlertCYP]
  induction meds with
  | nil => rfl
  | cons med t ih =>
    rw [List.flatMap_cons, List.count_append, ih]
    by_cases h : med = "abacavir"
    · subst h
      simp only [hl, e]
      simp [List.count_cons, hne, Ne.symm hne]
    · rw [hla_lookup_none h]
      rfl

lemma count_genetic_cyp (gi meds : List String) :
    (check_genetic_alerts gi meds).count gAlertCYP =
      gi.count "CYP2C19 Poor Metabolizer" * meds.count "clopidogrel" := by
  induction gi with
  | nil => simp [check_genetic_alerts]
  | cons m t ih =>
    rw [check_genetic_alerts, List.flatMap_cons, List.count_append]
    rw [check_genetic_alerts] at ih
    rw [ih, List.count_cons]
    rcases genetic_lookup_cases m with ⟨hm, hl⟩ | ⟨hm, hl⟩ | ⟨h1, h2, hl⟩
    · subst hm
      simp only [hl, count_inner_cyp]
      simp [Nat.succ_mul, Nat.add_comm]
    · subst hm
      simp only [hl, count_inner_hla_cyp_zero]
      simp
    · simp only [hl]
      simp [h1]


/-- The direct allergy alert for sulfamethoxazole under sulfa. -/
def aAlertSulMeth : String :=
  "[MODERATE] Allergy alert: sulfa allergy - avoid sulfamethoxazole."

/-- The direct allergy alert for sulfasalazine under sulfa. -/
def aAlertSulSal : String :=
  "[MODERATE] Allergy alert: sulfa allergy - avoid sulfasalazine."

lemma head_pen_amox (med : String) :
    (((if penicillinEntry.medications.contains med then
        [fmtAllergyAlert "penicillin" med penicillinEntry] else []) ++
      (if penicillinEntry.cross_reactivity.contains med then
        [fmtCrossAlert "penicillin" med] else [])).count aAlertPenAmox) =
      if med = "amoxicillin" then 1 else 0 := by
  by_cases h1 : med = "amoxicillin"
  · subst h1; decide
  · by_cases h2 : med = "ampicillin"
    · subst h2; simp [h1]; decide
    · by_cases h3 : med = "penicillin"
      · subst h3; simp [h1]; decide
      · by_cases h4 : med = "cephalosporins"
        · subst h4; simp [h1]; decide
        · have hm : med ∉ penicillinEntry.medications := by
            simp [penicillinEntry, h1, h2, h3]
          have hx : med ∉ penicillinEntry.cross_reactivity := by
            simp [penicillinEntry, h4]
          simp [hm, hx, h1]

lemma head_pen_ceph (med : String) :
    (((if penicillinEntry.medications.contains med then
        [fmtAllergyAlert "penicillin" med penicillinEntry] else []) ++
      (if penicillinEntry.cross_reactivity.contains med then
        [fmtCrossAlert "penicillin" med] else [])).count xAlertPenCeph) =
      if med = "cephalosporins" then 1 else 0 := by
  by_cases h1 : med = "amoxicillin"
  · subst h1; decide
  · by_cases h2 : med = "ampicillin"
    · subst h2; decide
    · by_cases h3 : med = "penicillin"
      · subst h3; decide
      · by_cases h4 : med = "cephalosporins"
        · subst h4; decide
        · have hm : med ∉ penicillinEntry.medications := by
            simp [penicillinEntry, h1, h2, h3]
          have hx : med ∉ penicillinEntry.cross_reactivity := by
            simp [penicillinEntry, h4]
          simp [hm, hx, h4]

lemma head_sulfa_zero (med target : String)
    (h1 : target ≠ aAlertSulMeth) (h2 : target ≠ aAlertSulSal) :
    (((if sulfaEntry.medications.contains med then
        [fmtAllergyAlert "sulfa" med sulfaEntry] else []) ++
      (if sulfaEntry.cross_reactivity.contains med then
        [fmtCrossAlert "sulfa" med] else [])).count target) = 0 := by
  have e1 : fmtAllergyAlert "sulfa" "sulfamethoxazole" sulfaEntry = aAlertSulMeth := rfl
  have e2 : fmtAllergyAlert "sulfa" "sulfasalazine" sulfaEntry = aAlertSulSal := rfl
  by_cases hm1 : med = "sulfamethoxazole"
  · subst hm1
    have hc1 : sulfaEntry.medications.contains "sulfamethoxazole" = true := rfl
    have hc2 : sulfaEntry.cross_reactivity.contains "sulfamethoxazole" = false := rfl
    simp only [hc1, hc2, e1]
    simp [List.count_cons, Ne.symm h1]
  · by_cases hm2 : med = "sulfasalazine"
    · subst hm2
      have hc1 : sulfaEntry.medications.contains "sulfasalazine" = true := rfl
      have hc2 : sulfaEntry.cross_reactivity.contains "sulfasalazine" = false := rfl
      simp only [hc1, hc2, e2]
      simp [List.count_cons, Ne.symm h2]
    · have hm : med ∉ sulfaEntry.medications := by simp [sulfaEntry, hm1, hm2]
      have hx : med ∉ sulfaEntry.cross_reactivity := by simp [sulfaEntry]
      simp [hm, hx]

lemma count_inner_pen_amox (meds : List String) :
    ((meds.flatMap fun med =>
      (if penicillinEntry.medications.contains med then
        [fmtAllergyAlert "penicillin" med penicillinEntry] else []) ++
      (if penicillinEntry.cross_reactivity.contains med then
        [fmtCrossAlert "penicillin" med] else [])).count aAlertPenAmox) =
      meds.count "amoxicillin" := by
  induction meds with
  | nil => rfl
  | cons med t ih =>
    rw [List.flatMap_cons, List.count_append, ih, head_pen_amox, List.count_cons]
    by_cases h : med = "amoxicillin" <;> simp [h] <;> omega

lemma count_inner_pen_ceph (meds : List String) :
    ((meds.flatMap fun med =>
      (if penicillinEntry.medications.contains med then
        [fmtAllergyAlert "penicillin" med penicillinEntry] else []) ++
      (if penicillinEntry.cross_reactivity.contains med then
        [fmtCrossAlert "penicillin" med] else [])).count xAlertPenCeph) =
      meds.count "cephalosporins" := by
  induction meds with
  | nil => rfl
  | cons med t ih =>
    rw [List.flatMap_cons, List.count_append, ih, head_pen_ceph, List.count_cons]
    by_cases h : med = "cephalosporins" <;> simp [h] <;> omega

lemma count_inner_sulfa_zero (meds : List String) (target : String)
    (h1 : target ≠ aAlertSulMeth) (h2 : target ≠ aAlertSulSal) :
    ((meds.flatMap fun med =>
      (if sulfaEntry.medications.contains med then
        [fmtAllergyAlert "sulfa" med sulfaEntry] else []) ++
      (if sulfaEntry.cross_reactivity.contains med then
        [fmtCrossAlert "sulfa" med] else [])).count target) = 0 := by
  induction meds with
  | nil => rfl
  | cons med t ih =>
    rw [List.flatMap_cons, List.count_append, ih, head_sulfa_zero med target h1 h2]

lemma count_allergy_generic (al meds : List String) (target key : String)
    (hpen : ∀ ms : List String,
      ((ms.flatMap fun med =>
        (if penicillinEntry.medications.contains med then
          [fmtAllergyAlert "penicillin" med penicillinEntry] else []) ++
        (if penicillinEntry.cross_reactivity.contains med then
          [fmtCrossAlert "penicillin" med] else [])).count target) = ms.count key)
    (h1 : target ≠ aAlertSulMeth) (h2 : target ≠ aAlertSulSal) :
    (check_allergy_alerts al meds).count target = al.count "penicillin" * meds.count key := by
  induction al with
  | nil => simp [check_allergy_alerts]
  | cons a t ih =>
    rw [check_allergy_alerts, List.flatMap_cons, List.count_append]
    rw [check_allergy_alerts] at ih
    rw [ih, List.count_cons]
    rcases allergy_lookup_cases a with ⟨ha, hl⟩ | ⟨ha, hl⟩ | ⟨hn1, hn2, hl⟩
    · subst ha
      simp only [hl, hpen meds]
      simp [Nat.succ_mul, Nat.add_comm]
    · subst ha
      simp only [hl, count_inner_sulfa_zero meds target h1 h2]
      simp
    · simp only [hl]
      simp [hn1]

lemma count_allergy_amox (al meds : List String) :
    (check_allergy_alerts al meds).count aAlertPenAmox =
      al.count "penicillin" * meds.count "amoxicillin" := by
  refine count_allergy_generic al meds aAlertPenAmox "amoxicillin" count_inner_pen_amox ?_ ?_
  · simp [aAlertPenAmox, aAlertSulMeth]
  · simp [aAlertPenAmox, aAlertSulSal]

lemma count_allergy_ceph (al meds : List String) :
    (check_allergy_alerts al meds).count xAlertPenCeph =
      al.count "penicillin" * meds.count "cephalosporins" := by
  refine count_allergy_generic al meds xAlertPenCeph "cephalosporins" count_inner_pen_ceph ?_ ?_
  · simp [xAlertPenCeph, aAlertSulMeth]
  · simp [xAlertPenCeph, aAlertSulSal]


/-- The comorbidity alert for NSAIDs under chronic kidney disease. -/
def cAlertCkdNsaid : String :=
  "[HIGH] Comorbidity alert: chronic_kidney_disease with NSAIDs. Recommendation: Avoid or adjust dose; monitor renal function."

/-- The comorbidity alert for anticholinergics under an explicit elderly comorbidity. -/
def cAlertEldAnti : String :=
  "[MODERATE] Comorbidity alert: elderly with anticholinergics. Recommendation: Use with caution; increased risk of falls and confusion."

lemma head_ckd_zero (med target : String)
    (h1 : target ≠ cAlertCkdMet) (h2 : target ≠ cAlertCkdNsaid) :
    ((if ckdEntry.medications.contains med then
      [fmtComorbidityAlert "chronic_kidney_disease" med ckdEntry] else []).count target) = 0 := by
  have e1 : fmtComorbidityAlert "chronic_kidney_disease" "metformin" ckdEntry = cAlertCkdMet := rfl
  have e2 : fmtComorbidityAlert "chronic_kidney_disease" "NSAIDs" ckdEntry = cAlertCkdNsaid := rfl
  by_cases hm1 : med = "metformin"
  · subst hm1
    have hc : ckdEntry.medications.contains "metformin" = true := rfl
    simp only [hc, e1]
    simp [List.count_cons, Ne.symm h1]
  · by_cases hm2 : med = "NSAIDs"
    · subst hm2
      have hc : ckdEntry.medications.contains "NSAIDs" = true := rfl
      simp only [hc, e2]
      simp [List.count_cons, Ne.symm h2]
    · have hm : med ∉ ckdEntry.medications := by simp [ckdEntry, hm1, hm2]
      simp [hm]

lemma head_age_zero (med target : String)
    (h1 : target ≠ ageAlertBenzo) (h2 : target ≠ ageAlertAnti) :
    ((if elderlyEntry.medications.contains med then
      [fmtAgeAlert med elderlyEntry] else []).count target) = 0 := by
  have e1 : fmtAgeAlert "benzodiazepines" elderlyEntry = ageAlertBenzo := rfl
  have e2 : fmtAgeAlert "anticholinergics" elderlyEntry = ageAlertAnti := rfl
  by_cases hm1 : med = "benzodiazepines"
  · subst hm1
    have hc : elderlyEntry.medications.contains "benzodiazepines" = true := rfl
    simp only [hc, e1]
    simp [List.count_cons, Ne.symm h1]
  · by_cases hm2 : med = "anticholinergics"
    · subst hm2
      have hc : elderlyEntry.medications.contains "anticholinergics" = true := rfl
      simp only [hc, e2]
      simp [List.count_cons, Ne.symm h2]
    · have hm : med ∉ elderlyEntry.medications := by simp [elderlyEntry, hm1, hm2]
      simp [hm]

lemma count_inner_ckd_zero (meds : List String) (target : String)
    (h1 : target ≠ cAlertCkdMet) (h2 : target ≠ cAlertCkdNsaid) :
    ((meds.flatMap fun med =>
      if ckdEntry.medications.contains med then
        [fmtComorbidityAlert "chronic_kidney_disease" med ckdEntry] else []).count target) = 0 := by
  induction meds with
  | nil => rfl
  | cons med t ih =>
    rw [List.flatMap_cons, List.count_append, ih, head_ckd_zero med target h1 h2]

lemma count_inner_age_zero (meds : List String) (target : String)
    (h1 : target ≠ ageAlertBenzo) (h2 : target ≠ ageAlertAnti) :
    ((meds.flatMap fun med =>
      if elderlyEntry.medications.contains med then
        [fmtAgeAlert med elderlyEntry] else []).count target) = 0 := by
  induction meds with
  | nil => rfl
  | cons med t ih =>
    rw [List.flatMap_cons, List.count_append, ih, head_age_zero med target h1 h2]

lemma head_ckd_met (med : String) :
    ((if ckdEntry.medications.contains med then
      [fmtComorbidityAlert "chronic_kidney_disease" med ckdEntry] else []).count cAlertCkdMet) =
      if med = "metformin" then 1 else 0 := by
  by_cases h1 : med = "metformin"
  · subst h1; decide
  · by_cases h2 : med = "NSAIDs"
    · subst h2; simp [h1]; decide
    · have hm : med ∉ ckdEntry.medications := by simp [ckdEntry, h1, h2]
      simp [hm, h1]

lemma head_eld_comorb_zero (med target : String)
    (h1 : target ≠ cAlertEldBenzo) (h2 : target ≠ cAlertEldAnti) :
    ((if elderlyEntry.medications.contains med then
      [fmtComorbidityAlert "elderly" med elderlyEntry] else []).count target) = 0 := by
  have e1 : fmtComorbidityAlert "elderly" "benzodiazepines" elderlyEntry = cAlertEldBenzo := rfl
  have e2 : fmtComorbidityAlert "elderly" "anticholinergics" elderlyEntry = cAlertEldAnti := rfl
  by_cases hm1 : med = "benzodiazepines"
  · subst hm1
    have hc : elderlyEntry.medications.contains "benzodiazepines" = true := rfl
    simp only [hc, e1]
    simp [List.count_cons, Ne.symm h1]
  · by_cases hm2 : med = "anticholinergics"
    · subst hm2
      have hc : elderlyEntry.medications.contains "anticholinergics" = true := rfl
      simp only [hc, e2]
      simp [List.count_cons, Ne.symm h2]
    · have hm : med ∉ elderlyEntry.medications := by simp [elderlyEntry, hm1, hm2]
      simp [hm]

lemma head_age_benzo (med : String) :
    ((if elderlyEntry.medications.contains med then
      [fmtAgeAlert med elderlyEntry] else []).count ageAlertBenzo) =
      if med = "benzodiazepines" then 1 else 0 := by
  by_cases h1 : med = "benzodiazepines"
  · subst h1; decide
  · by_cases h2 : med = "anticholinergics"
    · subst h2; simp [h1]; decide
    · have hm : med ∉ elderlyEntry.medications := by simp [elderlyEntry, h1, h2]
      simp [hm, h1]

lemma count_inner_ckd_met (meds : List String) :
    ((meds.flatMap fun med =>
      if ckdEntry.medications.contains med then
        [fmtComorbidityAlert "chronic_kidney_disease" med ckdEntry] else []).count cAlertCkdMet) =
      meds.count "metformin" := by
  induction meds with
  | nil => rfl
  | cons med t ih =>
    rw [List.flatMap_cons, List.count_append, ih, head_ckd_met, List.count_cons]
    by_cases h : med = "metformin"
    · subst h; simp; omega
    · simp [h]

lemma count_inner_eld_comorb_zero (meds : List String) (target : String)
    (h1 : target ≠ cAlertEldBenzo) (h2 : target ≠ cAlertEldAnti) :
    ((meds.flatMap fun med =>
      if elderlyEntry.medications.contains med then
        [fmtComorbidityAlert "elderly" med elderlyEntry] else []).count target) = 0 := by
  induction meds with
  | nil => rfl
  | cons med t ih =>
    rw [List.flatMap_cons, List.count_append, ih, head_eld_comorb_zero med target h1 h2]

lemma count_inner_age_benzo (meds : List String) :
    ((meds.flatMap fun med =>
      if elderlyEntry.medications.contains med then
        [fmtAgeAlert med elderlyEntry] else []).count ageAlertBenzo) =
      meds.count "benzodiazepines" := by
  induction meds with
  | nil => rfl
  | cons med t ih =>
    rw [List.flatMap_cons, List.count_append, ih, head_age_benzo, List.count_cons]
    by_cases h : med = "benzodiazepines"
    · subst h; simp; omega
    · simp [h]

lemma count_phase_ckd_met (com meds : List String) :
    (comorbidityPhase com meds).count cAlertCkdMet =
      com.count "chronic_kidney_disease" * meds.count "metformin" := by
  induction com with
  | nil => simp [comorbidityPhase]
  | cons c t ih =>
    rw [comorbidityPhase, List.flatMap_cons, List.count_append]
    rw [comorbidityPhase] at ih
    rw [ih, List.count_cons]
    rcases comorbidity_lookup_cases c with ⟨hc, hl⟩ | ⟨hc, hl⟩ | ⟨hn1, hn2, hl⟩
    · subst hc
      simp only [hl, count_inner_ckd_met]
      simp [Nat.succ_mul, Nat.add_comm]
    · subst hc
      have hz : (meds.flatMap fun med =>
          if elderlyEntry.medications.contains med then
            [fmtComorbidityAlert "elderly" med elderlyEntry] else []).count cAlertCkdMet = 0 := by
        refine count_inner_eld_comorb_zero meds cAlertCkdMet ?_ ?_
        · simp [cAlertCkdMet, cAlertEldBenzo]
        · simp [cAlertCkdMet, cAlertEldAnti]
      simp only [hl, hz]
      simp
    · simp only [hl]
      simp [hn1]

lemma count_phase_age_benzo_zero (com meds : List String) :
    (comorbidityPhase com meds).count ageAlertBenzo = 0 := by
  induction com with
  | nil => rfl
  | cons c t ih =>
    rw [comorbidityPhase, List.flatMap_cons, List.count_append]
    rw [comorbidityPhase] at ih
    rw [ih]
    rcases comorbidity_lookup_cases c with ⟨hc, hl⟩ | ⟨hc, hl⟩ | ⟨hn1, hn2, hl⟩
    · subst hc
      have hz : (meds.flatMap fun med =>
          if ckdEntry.medications.contains med then
            [fmtComorbidityAlert "chronic_kidney_disease" med ckdEntry] else []).count
            ageAlertBenzo = 0 := by
        refine count_inner_ckd_zero meds ageAlertBenzo ?_ ?_
        · simp [ageAlertBenzo, cAlertCkdMet]
        · simp [ageAlertBenzo, cAlertCkdNsaid]
      simp only [hl, hz]
    · subst hc
      have hz : (meds.flatMap fun med =>
          if elderlyEntry.medications.contains med then
            [fmtComorbidityAlert "elderly" med elderlyEntry] else []).count ageAlertBenzo = 0 := by
        refine count_inner_eld_comorb_zero meds ageAlertBenzo ?_ ?_
        · simp [ageAlertBenzo, cAlertEldBenzo]
        · simp [ageAlertBenzo, cAlertEldAnti]
      simp only [hl, hz]
    · simp only [hl]
      rfl

lemma count_age_phase_benzo (meds : List String) (age : Int) :
    (agePhase meds age).count ageAlertBenzo =
      if 65 ≤ age then meds.count "benzodiazepines" else 0 := by
  rw [agePhase]
  by_cases ha : (65 : Int) ≤ age
  · simp only [if_pos ha]
    have hl : COMORBIDITY_ALERTS.lookup "elderly" = some elderlyEntry := rfl
    simp only [hl, count_inner_age_benzo]
  · simp [ha]

lemma count_comorbidity_ckd_met (com meds : List String) (age : Int) :
    (check_comorbidity_alerts com meds age).count cAlertCkdMet =
      com.count "chronic_kidney_disease" * meds.count "metformin" := by
  rw [check_comorbidity_alerts, List.count_append, count_phase_ckd_met]
  have hz : (agePhase meds age).count cAlertCkdMet = 0 := by
    rw [agePhase]
    by_cases ha : (65 : Int) ≤ age
    · simp only [if_pos ha]
      have hl : COMORBIDITY_ALERTS.lookup "elderly" = some elderlyEntry := rfl
      simp only [hl]
      refine count_inner_age_zero meds cAlertCkdMet ?_ ?_
      · simp [cAlertCkdMet, ageAlertBenzo]
      · simp [cAlertCkdMet, ageAlertAnti]
    · simp [ha]
  rw [hz]
  simp

lemma count_comorbidity_age_benzo (com meds : List String) (age : Int) :
    (check_comorbidity_alerts com meds age).count ageAlertBenzo =
      if 65 ≤ age then meds.count "benzodiazepines" else 0 := by
  rw [check_comorbidity_alerts, List.count_append, count_phase_age_benzo_zero,
    count_age_phase_benzo]
  simp

end ClinicalAlerts

namespace ClinicalAlerts

/-- Boolean test that the first character list is an initial segment of
the second. -/
def charsStartWith : List Char → List Char → Bool
  | [], _ => true
  | _ :: _, [] => false
  | p :: ps, c :: cs => p == c && charsStartWith ps cs

/-- Boolean test that the first character list occurs inside the
second. -/
def containsPat (pat : List Char) : List Char → Bool
  | [] => charsStartWith pat []
  | c :: cs => charsStartWith pat (c :: cs) || containsPat pat cs

/-- Drop everything up to and through the first occurrence of the
pattern. -/
def dropThroughPat (pat : List Char) : List Char → List Char
  | [] => []
  | c :: cs =>
    if charsStartWith pat (c :: cs) then List.drop pat.length (c :: cs)
    else dropThroughPat pat cs

/-- Take everything before the first occurrence of the pattern. -/
def takeUntilPat (pat : List Char) : List Char → List Char
  | [] => []
  | c :: cs =>
    if charsStartWith pat (c :: cs) then []
    else c :: takeUntilPat pat cs

/-- The severity label of an alert string: the text between the leading
bracket and the closing bracket. -/
def severityOf (s : String) : String :=
  String.mk (takeUntilPat "]".data (List.drop 1 s.data))

/-- The category of an alert string: the text between the closing
bracket and the word alert. -/
def categoryOf (s : String) : String :=
  String.mk (takeUntilPat " alert".data (dropThroughPat "] ".data s.data))

/-- Whether an alert string carries a recommendation part. -/
def hasRecommendation (s : String) : Bool :=
  containsPat "Recommendation: ".data s.data

lemma mem_allergy_intro_cross (al meds : List String) (allergy med : String) (e : AllergyEntry)
    (hal : allergy ∈ al) (hl : ALLERGY_ALERTS.lookup allergy = some e)
    (hmed : med ∈ meds) (hx : e.cross_reactivity.contains med = true) :
    fmtCrossAlert allergy med ∈ check_allergy_alerts al meds := by
  rw [check_allergy_alerts]
  refine List.mem_flatMap.mpr ⟨allergy, hal, ?_⟩
  simp only [hl]
  refine List.mem_flatMap.mpr ⟨med, hmed, ?_⟩
  have hx2 : med ∈ e.cross_reactivity := by simpa using hx
  simp [hx2]

lemma mem_comorbidityPhase_intro (com meds : List String) (comorb med : String)
    (e : ComorbidityEntry) (hcom : comorb ∈ com)
    (hl : COMORBIDITY_ALERTS.lookup comorb = some e)
    (hmed : med ∈ meds) (hc : e.medications.contains med = true) :
    fmtComorbidityAlert comorb med e ∈ comorbidityPhase com meds := by
  rw [comorbidityPhase]
  refine List.mem_flatMap.mpr ⟨comorb, hcom, ?_⟩
  simp only [hl]
  refine List.mem_flatMap.mpr ⟨med, hmed, ?_⟩
  have hc2 : med ∈ e.medications := by simpa using hc
  simp [hc2]

lemma mem_agePhase_intro (meds : List String) (age : Int) (med : String)
    (hage : 65 ≤ age) (hmed : med ∈ meds)
    (hc : elderlyEntry.medications.contains med = true) :
    fmtAgeAlert med elderlyEntry ∈ agePhase meds age := by
  rw [agePhase]
  simp only [if_pos hage]
  have hl : COMORBIDITY_ALERTS.lookup "elderly" = some elderlyEntry := rfl
  simp only [hl]
  refine List.mem_flatMap.mpr ⟨med, hmed, ?_⟩
  have hc2 : med ∈ elderlyEntry.medications := by simpa using hc
  simp [hc2]

lemma agePhase_age_bound (meds : List String) (age : Int) (a : String)
    (h : a ∈ agePhase meds age) : 65 ≤ age := by
  rw [agePhase] at h
  by_cases ha : (65 : Int) ≤ age
  · exact ha
  · rw [if_neg ha] at h
    exact absurd h (List.not_mem_nil a)

lemma mem_comorbidityPhase_catalog (com meds : List String) (a : String)
    (h : a ∈ comorbidityPhase com meds) :
    a = cAlertCkdMet ∨ a = cAlertCkdNsaid ∨ a = cAlertEldBenzo ∨ a = cAlertEldAnti := by
  rw [comorbidityPhase] at h
  rcases List.mem_flatMap.mp h with ⟨c, hc, ha⟩
  rcases comorbidity_lookup_cases c with ⟨hq, hl⟩ | ⟨hq, hl⟩ | ⟨_, _, hl⟩
  · subst hq
    simp only [hl] at ha
    rcases List.mem_flatMap.mp ha with ⟨med, _, hif⟩
    by_cases hcm : ckdEntry.medications.contains med = true
    · rw [if_pos hcm] at hif
      have hmm : med = "metformin" ∨ med = "NSAIDs" := by
        have h2 := hcm
        simp [ckdEntry] at h2
        exact h2
      rcases hmm with hm | hm
      · subst hm
        rw [List.mem_singleton] at hif
        subst hif
        exact Or.inl rfl
      · subst hm
        rw [List.mem_singleton] at hif
        subst hif
        exact Or.inr (Or.inl rfl)
    · rw [if_neg hcm] at hif
      exact absurd hif (List.not_mem_nil a)
  · subst hq
    simp only [hl] at ha
    rcases List.mem_flatMap.mp ha with ⟨med, _, hif⟩
    by_cases hcm : elderlyEntry.medications.contains med = true
    · rw [if_pos hcm] at hif
      have hmm : med = "benzodiazepines" ∨ med = "anticholinergics" := by
        have h2 := hcm
        simp [elderlyEntry] at h2
        exact h2
      rcases hmm with hm | hm
      · subst hm
        rw [List.mem_singleton] at hif
        subst hif
        exact Or.inr (Or.inr (Or.inl rfl))
      · subst hm
        rw [List.mem_singleton] at hif
        subst hif
        exact Or.inr (Or.inr (Or.inr rfl))
    · rw [if_neg hcm] at hif
      exact absurd hif (List.not_mem_nil a)
  · simp only [hl] at ha
    exact absurd ha (List.not_mem_nil a)


/-- C2: for every allergen entry of the knowledge base and every
medication in its cross_reactivity list, the emitted cross-reactivity
alert carries the fixed severity label MODERATE even though the entry
stores severity high, and a direct allergy alert for the same pair would
be emitted independently in addition. -/
theorem cross_reactivity_fixed_moderate :
    ∀ (allergy med : String) (e : AllergyEntry),
      ALLERGY_ALERTS.lookup allergy = some e → med ∈ e.cross_reactivity →
      (∀ al meds : List String, allergy ∈ al → med ∈ meds →
        fmtCrossAlert allergy med ∈ check_allergy_alerts al meds) ∧
      severityOf (fmtCrossAlert allergy med) = "MODERATE" ∧
      pyUpper e.severity = "HIGH" ∧
      (∀ al meds : List String, allergy ∈ al → med ∈ meds → med ∈ e.medications →
        fmtAllergyAlert allergy med e ∈ check_allergy_alerts al meds) := by
  intro allergy med e hl hx
  rcases allergy_lookup_cases allergy with ⟨ha, hl2⟩ | ⟨ha, hl2⟩ | ⟨_, _, hl2⟩
  · subst ha
    rw [hl2] at hl
    have he : e = penicillinEntry := (Option.some.inj hl).symm
    subst he
    have hmed : med = "cephalosporins" := by simpa [penicillinEntry] using hx
    subst hmed
    refine ⟨?_, by decide, by decide, ?_⟩
    · intro al meds hal hm
      exact mem_allergy_intro_cross al meds "penicillin" "cephalosporins" penicillinEntry hal
        hl2 hm (by decide)
    · intro al meds hal hm hdm
      exact absurd hdm (by decide)
  · subst ha
    rw [hl2] at hl
    have he : e = sulfaEntry := (Option.some.inj hl).symm
    subst he
    exact absurd hx (by simp [sulfaEntry])
  · rw [hl2] at hl
    exact absurd hl (by simp)

/-- C2 witness: the penicillin and cephalosporins cross-reactivity alert
appears in the checker output on a concrete patient. -/
theorem cross_reactivity_fixed_moderate_witness :
    fmtCrossAlert "penicillin" "cephalosporins" ∈
      check_allergy_alerts ["penicillin"] ["cephalosporins"] :=
  (cross_reactivity_fixed_moderate "penicillin" "cephalosporins" penicillinEntry rfl
    (by decide)).1 ["penicillin"] ["cephalosporins"] (by decide) (by decide)

/-- C6: a patient listing elderly among comorbidities, aged at least 65
and taking a medication of the elderly entry receives both the
comorbidity alert and the age alert for that medication, and the two
alert strings differ, so neither subsumes the other. -/
theorem elderly_double_alert :
    ∀ (med : String) (com meds : List String) (age : Int),
      med ∈ elderlyEntry.medications → "elderly" ∈ com → 65 ≤ age → med ∈ meds →
      fmtComorbidityAlert "elderly" med elderlyEntry ∈
        check_comorbidity_alerts com meds age ∧
      fmtAgeAlert med elderlyEntry ∈ check_comorbidity_alerts com meds age ∧
      fmtComorbidityAlert "elderly" med elderlyEntry ≠ fmtAgeAlert med elderlyEntry := by
  intro med com meds age hmed hcom hage hm
  have hcont : elderlyEntry.medications.contains med = true := by simpa using hmed
  have hl : COMORBIDITY_ALERTS.lookup "elderly" = some elderlyEntry := rfl
  refine ⟨List.mem_append.mpr (Or.inl
      (mem_comorbidityPhase_intro com meds "elderly" med elderlyEntry hcom hl hm hcont)),
    List.mem_append.mpr (Or.inr (mem_agePhase_intro meds age med hage hm hcont)), ?_⟩
  have hmed2 : med = "benzodiazepines" ∨ med = "anticholinergics" := by
    simpa [elderlyEntry] using hmed
  rcases hmed2 with hb | hb
  · subst hb; decide
  · subst hb; decide

/-- C6 witness: on a concrete elderly patient taking benzodiazepines,
both the comorbidity alert and the age alert appear. -/
theorem elderly_double_alert_witness :
    fmtComorbidityAlert "elderly" "benzodiazepines" elderlyEntry ∈
      check_comorbidity_alerts ["elderly"] ["benzodiazepines"] 70 ∧
    fmtAgeAlert "benzodiazepines" elderlyEntry ∈
      check_comorbidity_alerts ["elderly"] ["benzodiazepines"] 70 :=
  ⟨(elderly_double_alert "benzodiazepines" ["elderly"] ["benzodiazepines"] 70 (by decide)
      (by decide) (by decide) (by decide)).1,
   (elderly_double_alert "benzodiazepines" ["elderly"] ["benzodiazepines"] 70 (by decide)
      (by decide) (by decide) (by decide)).2.1⟩

/-- C7: for a medication of the elderly entry that the patient takes,
check_comorbidity_alerts emits the age alert exactly when age is at
least 65; smaller, zero or negative ages yield none. -/
theorem age_rule_threshold :
    ∀ (med : String) (com meds : List String) (age : Int),
      med ∈ elderlyEntry.medications → med ∈ meds →
      (fmtAgeAlert med elderlyEntry ∈ check_comorbidity_alerts com meds age ↔ 65 ≤ age) := by
  intro med com meds age hmed hm
  have hcont : elderlyEntry.medications.contains med = true := by simpa using hmed
  have hmed2 : med = "benzodiazepines" ∨ med = "anticholinergics" := by
    simpa [elderlyEntry] using hmed
  constructor
  · intro h
    rcases List.mem_append.mp h with h1 | h2
    · exfalso
      have hcat := mem_comorbidityPhase_catalog com meds _ h1
      rcases hmed2 with hb | hb
      · subst hb
        rcases hcat with h | h | h | h <;> revert h <;> decide
      · subst hb
        rcases hcat with h | h | h | h <;> revert h <;> decide
    · exact agePhase_age_bound meds age _ h2
  · intro hage
    exact List.mem_append.mpr (Or.inr (mem_agePhase_intro meds age med hage hm hcont))

/-- C7 witness: at age 65 the benzodiazepine age alert appears, and at
age 64 it does not. -/
theorem age_rule_threshold_witness :
    fmtAgeAlert "benzodiazepines" elderlyEntry ∈
      check_comorbidity_alerts [] ["benzodiazepines"] 65 ∧
    fmtAgeAlert "benzodiazepines" elderlyEntry ∉
      check_comorbidity_alerts [] ["benzodiazepines"] 64 :=
  ⟨(age_rule_threshold "benzodiazepines" [] ["benzodiazepines"] 65 (by decide)
      (by decide)).mpr (by decide),
   fun h => absurd ((age_rule_threshold "benzodiazepines" [] ["benzodiazepines"] 64 (by decide)
      (by decide)).mp h) (by decide)⟩

/-- C10: patient fields are consumed as ordered lists: each matching
genetic, allergy, cross-reactivity, comorbidity or age alert is emitted
once per occurrence of the triggering names (a product of the two
occurrence counts for the nested loops), while an interaction alert is
emitted at most once per stored pair. -/
theorem occurrence_multiplicity :
    ∀ (gi al com meds : List String) (age : Int),
      ((check_genetic_alerts gi meds).count gAlertCYP =
        gi.count "CYP2C19 Poor Metabolizer" * meds.count "clopidogrel") ∧
      ((check_allergy_alerts al meds).count aAlertPenAmox =
        al.count "penicillin" * meds.count "amoxicillin") ∧
      ((check_allergy_alerts al meds).count xAlertPenCeph =
        al.count "penicillin" * meds.count "cephalosporins") ∧
      ((check_comorbidity_alerts com meds age).count cAlertCkdMet =
        com.count "chronic_kidney_disease" * meds.count "metformin") ∧
      ((check_comorbidity_alerts com meds age).count ageAlertBenzo =
        if 65 ≤ age then meds.count "benzodiazepines" else 0) ∧
      (check_drug_interactions meds).count iAlertWA ≤ 1 ∧
      (check_drug_interactions meds).count iAlertSC ≤ 1 := by
  intro gi al com meds age
  have hne : iAlertWA ≠ iAlertSC := by simp [iAlertWA, iAlertSC]
  refine ⟨count_genetic_cyp gi meds, count_allergy_amox al meds, count_allergy_ceph al meds,
    count_comorbidity_ckd_met com meds age, count_comorbidity_age_benzo com meds age, ?_, ?_⟩
  · rw [check_drug_interactions_eq, List.count_append, List.count_append]
    have h1 : (if meds.contains "warfarin" && meds.contains "amiodarone" then [iAlertWA]
        else []).count iAlertWA ≤ 1 := by
      split
      · simp
      · simp
    have h2 : (if meds.contains "simvastatin" && meds.contains "clarithromycin" then [iAlertSC]
        else []).count iAlertWA = 0 := by
      split
      · simp [List.count_cons, Ne.symm hne]
      · rfl
    rw [h2]
    simpa using h1
  · rw [check_drug_interactions_eq, List.count_append, List.count_append]
    have h1 : (if meds.contains "simvastatin" && meds.contains "clarithromycin" then [iAlertSC]
        else []).count iAlertSC ≤ 1 := by
      split
      · simp
      · simp
    have h2 : (if meds.contains "warfarin" && meds.contains "amiodarone" then [iAlertWA]
        else []).count iAlertSC = 0 := by
      split
      · simp [List.count_cons, hne]
      · rfl
    rw [h2]
    simpa using h1


/-- The direct allergy alert for ampicillin under penicillin. -/
def aAlertPenAmp : String :=
  "[HIGH] Allergy alert: penicillin allergy - avoid ampicillin."

/-- The direct allergy alert for penicillin under penicillin. -/
def aAlertPenPen : String :=
  "[HIGH] Allergy alert: penicillin allergy - avoid penicillin."

/-- Every alert any checker can ever emit: one string per knowledge-base
entry and trigger. -/
def alertCatalog : List String :=
  [gAlertCYP, gAlertHLA,
   aAlertPenAmox, aAlertPenAmp, aAlertPenPen, aAlertSulMeth, aAlertSulSal, xAlertPenCeph,
   iAlertWA, iAlertSC,
   cAlertCkdMet, cAlertCkdNsaid, cAlertEldBenzo, cAlertEldAnti,
   ageAlertBenzo, ageAlertAnti]

lemma genetic_sub (gi meds : List String) (a : String)
    (h : a ∈ check_genetic_alerts gi meds) : a = gAlertCYP ∨ a = gAlertHLA := by
  rw [check_genetic_alerts] at h
  rcases List.mem_flatMap.mp h with ⟨m, _, ha⟩
  rcases genetic_lookup_cases m with ⟨hq, hl⟩ | ⟨hq, hl⟩ | ⟨_, _, hl⟩
  · subst hq
    simp only [hl] at ha
    rcases List.mem_flatMap.mp ha with ⟨med, _, hif⟩
    cases hlk : cypTable.lookup med with
    | some info =>
      rw [hlk] at hif
      rw [List.mem_singleton] at hif
      subst hif
      rcases cyp_lookup_inv med info hlk with ⟨hm, hi⟩
      subst hm
      subst hi
      exact Or.inl rfl
    | none =>
      rw [hlk] at hif
      exact absurd hif (List.not_mem_nil a)
  · subst hq
    simp only [hl] at ha
    rcases List.mem_flatMap.mp ha with ⟨med, _, hif⟩
    cases hlk : hlaTable.lookup med with
    | some info =>
      rw [hlk] at hif
      rw [List.mem_singleton] at hif
      subst hif
      rcases hla_lookup_inv med info hlk with ⟨hm, hi⟩
      subst hm
      subst hi
      exact Or.inr rfl
    | none =>
      rw [hlk] at hif
      exact absurd hif (List.not_mem_nil a)
  · simp only [hl] at ha
    exact absurd ha (List.not_mem_nil a)

lemma allergy_sub (al meds : List String) (a : String)
    (h : a ∈ check_allergy_alerts al meds) :
    a = aAlertPenAmox ∨ a = aAlertPenAmp ∨ a = aAlertPenPen ∨ a = aAlertSulMeth ∨
      a = aAlertSulSal ∨ a = xAlertPenCeph := by
  rw [check_allergy_alerts] at h
  rcases List.mem_flatMap.mp h with ⟨al0, _, ha⟩
  rcases allergy_lookup_cases al0 with ⟨hq, hl⟩ | ⟨hq, hl⟩ | ⟨_, _, hl⟩
  · subst hq
    simp only [hl] at ha
    rcases List.mem_flatMap.mp ha with ⟨med, _, hif⟩
    rcases List.mem_append.mp hif with hd | hx
    · by_cases hc : penicillinEntry.medications.contains med = true
      · rw [if_pos hc] at hd
        rw [List.mem_singleton] at hd
        subst hd
        have hmm : med = "amoxicillin" ∨ med = "ampicillin" ∨ med = "penicillin" := by
          simpa [penicillinEntry] using hc
        rcases hmm with hm | hm | hm
        · subst hm; exact Or.inl rfl
        · subst hm; exact Or.inr (Or.inl rfl)
        · subst hm; exact Or.inr (Or.inr (Or.inl rfl))
      · rw [if_neg hc] at hd
        exact absurd hd (List.not_mem_nil a)
    · by_cases hc : penicillinEntry.cross_reactivity.contains med = true
      · rw [if_pos hc] at hx
        rw [List.mem_singleton] at hx
        subst hx
        have hm : med = "cephalosporins" := by simpa [penicillinEntry] using hc
        subst hm
        exact Or.inr (Or.inr (Or.inr (Or.inr (Or.inr rfl))))
      · rw [if_neg hc] at hx
        exact absurd hx (List.not_mem_nil a)
  · subst hq
    simp only [hl] at ha
    rcases List.mem_flatMap.mp ha with ⟨med, _, hif⟩
    rcases List.mem_append.mp hif with hd | hx
    · by_cases hc : sulfaEntry.medications.contains med = true
      · rw [if_pos hc] at hd
        rw [List.mem_singleton] at hd
        subst hd
        have hmm : med = "sulfamethoxazole" ∨ med = "sulfasalazine" := by
          simpa [sulfaEntry] using hc
        rcases hmm with hm | hm
        · subst hm; exact Or.inr (Or.inr (Or.inr (Or.inl rfl)))
        · subst hm; exact Or.inr (Or.inr (Or.inr (Or.inr (Or.inl rfl))))
      · rw [if_neg hc] at hd
        exact absurd hd (List.not_mem_nil a)
    · by_cases hc : sulfaEntry.cross_reactivity.contains med = true
      · exact absurd hc (by simp [sulfaEntry])
      · rw [if_neg hc] at hx
        exact absurd hx (List.not_mem_nil a)
  · simp only [hl] at ha
    exact absurd ha (List.not_mem_nil a)

lemma interaction_sub (meds : List String) (a : String)
    (h : a ∈ check_drug_interactions meds) : a = iAlertWA ∨ a = iAlertSC := by
  rw [check_drug_interactions_eq] at h
  rcases List.mem_append.mp h with h1 | h2
  · by_cases hc : (meds.contains "warfarin" && meds.contains "amiodarone") = true
    · rw [if_pos hc] at h1
      rw [List.mem_singleton] at h1
      exact Or.inl h1
    · rw [if_neg hc] at h1
      exact absurd h1 (List.not_mem_nil a)
  · rw [List.append_nil] at h2
    by_cases hc : (meds.contains "simvastatin" && meds.contains "clarithromycin") = true
    · rw [if_pos hc] at h2
      rw [List.mem_singleton] at h2
      exact Or.inr h2
    · rw [if_neg hc] at h2
      exact absurd h2 (List.not_mem_nil a)

lemma agePhase_sub (meds : List String) (age : Int) (a : String)
    (h : a ∈ agePhase meds age) : a = ageAlertBenzo ∨ a = ageAlertAnti := by
  rw [agePhase] at h
  by_cases ha : (65 : Int) ≤ age
  · rw [if_pos ha] at h
    have hl : COMORBIDITY_ALERTS.lookup "elderly" = some elderlyEntry := rfl
    simp only [hl] at h
    rcases List.mem_flatMap.mp h with ⟨med, _, hif⟩
    by_cases hc : elderlyEntry.medications.contains med = true
    · rw [if_pos hc] at hif
      rw [List.mem_singleton] at hif
      subst hif
      have hmm : med = "benzodiazepines" ∨ med = "anticholinergics" := by
        simpa [elderlyEntry] using hc
      rcases hmm with hm | hm
      · subst hm; exact Or.inl rfl
      · subst hm; exact Or.inr rfl
    · rw [if_neg hc] at hif
      exact absurd hif (List.not_mem_nil a)
  · rw [if_neg ha] at h
    exact absurd h (List.not_mem_nil a)

/-- C5 counterexample: the direct allergy alert carries no
recommendation part while the interaction alert does carry one, contrary
to the claim, which says the opposite for these two categories. -/
theorem allergy_interaction_recommendation_swapped :
    check_allergy_alerts ["penicillin"] ["amoxicillin"] = [aAlertPenAmox] ∧
    hasRecommendation aAlertPenAmox = false ∧
    check_drug_interactions ["warfarin", "amiodarone"] = [iAlertWA] ∧
    hasRecommendation iAlertWA = true := by decide

/-- C5 (amended): every emitted alert is one of the sixteen catalog
strings, whose categories lie in the six known categories, and an alert
carries a recommendation part exactly when its category is not Allergy
and not Cross-reactivity: genetic, interaction, comorbidity and age
alerts carry one, direct allergy and cross-reactivity alerts do not. -/
theorem alert_format_catalog :
    (∀ (p : Patient) (a : String), a ∈ generate_contextual_alerts p → a ∈ alertCatalog) ∧
    (∀ a ∈ alertCatalog, categoryOf a ∈
      (["Genetic", "Allergy", "Cross-reactivity", "Interaction", "Comorbidity", "Age"] :
        List String)) ∧
    (∀ a ∈ alertCatalog,
      hasRecommendation a = true ↔
        categoryOf a ∉ (["Allergy", "Cross-reactivity"] : List String)) := by
  refine ⟨?_, by decide, by decide⟩
  intro p a h
  rw [generate_contextual_alerts] at h
  rcases List.mem_append.mp h with h123 | h4
  · rcases List.mem_append.mp h123 with h12 | h3
    · rcases List.mem_append.mp h12 with h1 | h2
      · rcases genetic_sub _ _ a h1 with hh | hh <;> subst hh <;> simp [alertCatalog]
      · rcases allergy_sub _ _ a h2 with hh | hh | hh | hh | hh | hh <;> subst hh <;>
          simp [alertCatalog]
    · rcases interaction_sub _ a h3 with hh | hh <;> subst hh <;> simp [alertCatalog]
  · rw [check_comorbidity_alerts] at h4
    rcases List.mem_append.mp h4 with hc | hg
    · rcases mem_comorbidityPhase_catalog _ _ a hc with hh | hh | hh | hh <;> subst hh <;>
        simp [alertCatalog]
    · rcases agePhase_sub _ _ a hg with hh | hh <;> subst hh <;> simp [alertCatalog]

set_option maxRecDepth 4000 in
/-- C5 witness: a concrete alert of a concrete patient lies in the
catalog. -/
theorem alert_format_catalog_witness : gAlertCYP ∈ alertCatalog :=
  alert_format_catalog.1 samplePatient gAlertCYP (by decide)


/-- A Python value as it may appear inside a patient record collection.
The nominal case is a string; a caller may also pass a hashable
non-string such as a number, which never equals a string key, or an
unhashable container such as a list, for which any hashing operation
raises TypeError.  The pylist constructor stands for such an unhashable
value: the program behavior depends only on its unhashability and on
its never equalling a string. -/
inductive PyVal where
  | str (s : String)
  | int (n : Int)
  | pylist
  deriving DecidableEq, Repr

/-- Whether hashing the value succeeds in Python. -/
def PyVal.hashable : PyVal → Bool
  | PyVal.str _ => true
  | PyVal.int _ => true
  | PyVal.pylist => false

/-- The string elements of a mixed list, in order. -/
def strsOf (l : List PyVal) : List String :=
  l.flatMap fun v =>
    match v with
    | PyVal.str s => [s]
    | PyVal.int _ => []
    | PyVal.pylist => []

/-- Membership of the string key s in a mixed medication list, as
Python evaluates s in set(medications) once the set is built: a
non-string element never equals a string. -/
def containsStr (l : List PyVal) (s : String) : Bool :=
  l.any fun v =>
    match v with
    | PyVal.str t => s == t
    | PyVal.int _ => false
    | PyVal.pylist => false

/-- The medication loop of check_genetic_alerts under one matched
marker, over mixed values: the test med in GENETIC_ALERTS[marker] is a
dict membership, so it hashes med and raises TypeError on an unhashable
medication; a hashable non-string is simply not a key. -/
def innerGeneticE (entry : List (String × GeneticEntry)) (m : String) :
    List PyVal → Except String (List String)
  | [] => Except.ok []
  | med :: rest =>
    match med with
    | PyVal.pylist => Except.error "TypeError"
    | PyVal.int _ => innerGeneticE entry m rest
    | PyVal.str d =>
      match innerGeneticE entry m rest with
      | Except.error e => Except.error e
      | Except.ok more =>
        match entry.lookup d with
        | some info => Except.ok (fmtGeneticAlert m d info :: more)
        | none => Except.ok more

/-- check_genetic_alerts over mixed values: the test marker in
GENETIC_ALERTS hashes the marker, so an unhashable marker raises
TypeError; a hashable non-string marker is not a key and is skipped. -/
def check_genetic_alertsE (genetic_info medications : List PyVal) :
    Except String (List String) :=
  match genetic_info with
  | [] => Except.ok []
  | marker :: rest =>
    match marker with
    | PyVal.pylist => Except.error "TypeError"
    | PyVal.int _ => check_genetic_alertsE rest medications
    | PyVal.str m =>
      match GENETIC_ALERTS.lookup m with
      | none => check_genetic_alertsE rest medications
      | some entry =>
        match innerGeneticE entry m medications with
        | Except.error e => Except.error e
        | Except.ok here =>
          match check_genetic_alertsE rest medications with
          | Except.error e => Except.error e
          | Except.ok more => Except.ok (here ++ more)

/-- The medication loop of check_allergy_alerts under one matched
allergen, over mixed values: both tests are list memberships, which
compare elementwise without hashing, so no element can raise and a
non-string element simply never matches. -/
def innerAllergy (a : String) (e : AllergyEntry) (medications : List PyVal) : List String :=
  medications.flatMap fun med =>
    match med with
    | PyVal.str d =>
      (if e.medications.contains d then [fmtAllergyAlert a d e] else []) ++
      (if e.cross_reactivity.contains d then [fmtCrossAlert a d] else [])
    | PyVal.int _ => []
    | PyVal.pylist => []

/-- check_allergy_alerts over mixed values: the test allergy in
ALLERGY_ALERTS hashes the allergen, so an unhashable allergen raises
TypeError; the inner medication loop cannot raise. -/
def check_allergy_alertsE (allergies medications : List PyVal) :
    Except String (List String) :=
  match allergies with
  | [] => Except.ok []
  | allergy :: rest =>
    match allergy with
    | PyVal.pylist => Except.error "TypeError"
    | PyVal.int _ => check_allergy_alertsE rest medications
    | PyVal.str a =>
      match ALLERGY_ALERTS.lookup a with
      | none => check_allergy_alertsE rest medications
      | some e =>
        match check_allergy_alertsE rest medications with
        | Except.error err => Except.error err
        | Except.ok more => Except.ok (innerAllergy a e medications ++ more)

/-- check_drug_interactions over mixed values: set(medications) hashes
every element up front, so any unhashable medication raises TypeError
before any pair is examined. -/
def check_drug_interactionsE (medications : List PyVal) : Except String (List String) :=
  if medications.all PyVal.hashable then
    Except.ok (DRUG_INTERACTIONS.flatMap fun pair =>
      if containsStr medications pair.1.1 && containsStr medications pair.1.2 then
        [fmtInteractionAlert pair.1.1 pair.1.2 pair.2]
      else [])
  else Except.error "TypeError"

/-- The medication loop of the comorbidity phase under one matched
condition: a list membership, which cannot raise. -/
def innerComorb (c : String) (info : ComorbidityEntry) (medications : List PyVal) :
    List String :=
  medications.flatMap fun med =>
    match med with
    | PyVal.str d =>
      if info.medications.contains d then [fmtComorbidityAlert c d info] else []
    | PyVal.int _ => []
    | PyVal.pylist => []

/-- The comorbidity loop over mixed values: the test comorb in
COMORBIDITY_ALERTS hashes the condition name, so an unhashable one
raises TypeError. -/
def comorbidityPhaseE (comorbidities medications : List PyVal) :
    Except String (List String) :=
  match comorbidities with
  | [] => Except.ok []
  | comorb :: rest =>
    match comorb with
    | PyVal.pylist => Except.error "TypeError"
    | PyVal.int _ => comorbidityPhaseE rest medications
    | PyVal.str c =>
      match COMORBIDITY_ALERTS.lookup c with
      | none => comorbidityPhaseE rest medications
      | some info =>
        match comorbidityPhaseE rest medications with
        | Except.error e => Except.error e
        | Except.ok more => Except.ok (innerComorb c info medications ++ more)

/-- The age block over mixed values: the key elderly is a literal
string and the medication test is a list membership, so the block
cannot raise. -/
def agePhaseP (medications : List PyVal) (age : Int) : List String :=
  if 65 ≤ age then
    match COMORBIDITY_ALERTS.lookup "elderly" with
    | some elderly_info =>
      medications.flatMap fun med =>
        match med with
        | PyVal.str d =>
          if elderly_info.medications.contains d then [fmtAgeAlert d elderly_info] else []
        | PyVal.int _ => []
        | PyVal.pylist => []
    | none => []
  else []

/-- check_comorbidity_alerts over mixed values. -/
def check_comorbidity_alertsE (comorbidities medications : List PyVal) (age : Int) :
    Except String (List String) :=
  match comorbidityPhaseE comorbidities medications with
  | Except.error e => Except.error e
  | Except.ok p1 => Except.ok (p1 ++ agePhaseP medications age)

/-- A patient record whose collections may hold non-string values. -/
structure PatientDyn where
  genetic_info : Option (List PyVal) := none
  allergies : Option (List PyVal) := none
  medications : Option (List PyVal) := none
  comorbidities : Option (List PyVal) := none
  age : Option Int := none

/-- generate_contextual_alerts over a mixed-value patient record: the
four checkers run in order and the first exception aborts the run. -/
def generate_contextual_alertsE (patient : PatientDyn) : Except String (List String) :=
  match check_genetic_alertsE (patient.genetic_info.getD []) (patient.medications.getD []) with
  | Except.error e => Except.error e
  | Except.ok g =>
    match check_allergy_alertsE (patient.allergies.getD []) (patient.medications.getD []) with
    | Except.error e => Except.error e
    | Except.ok a =>
      match check_drug_interactionsE (patient.medications.getD []) with
      | Except.error e => Except.error e
      | Except.ok i =>
        match check_comorbidity_alertsE (patient.comorbidities.getD [])
            (patient.medications.getD []) (patient.age.getD 0) with
        | Except.error e => Except.error e
        | Except.ok c => Except.ok (g ++ a ++ i ++ c)

/-- A concrete record whose medication and allergy lists hold hashable
non-string elements alongside strings. -/
def nonStringPatient : PatientDyn :=
  { genetic_info := some [PyVal.str "CYP2C19 Poor Metabolizer"],
    allergies := some [PyVal.str "penicillin", PyVal.int 7],
    medications := some [PyVal.int 42, PyVal.str "clopidogrel"],
    comorbidities := some [],
    age := some 70 }

/-- C4 counterexample: on a record with non-string elements in the
medication and allergy collections, evaluation does not fail at all: it
returns the ordinary alert list of the string elements, so no
ValidationError is raised; and the record holding an unhashable element
raises TypeError, which is not a ValidationError either. -/
theorem nonstring_elements_do_not_fail :
    generate_contextual_alertsE nonStringPatient = Except.ok [gAlertCYP] ∧
    generate_contextual_alertsE
      { medications := some [PyVal.pylist, PyVal.str "warfarin"] } =
      Except.error "TypeError" := by
  constructor
  · rfl
  · rfl


lemma flatMap_match_strs (f : String → List String) (l : List PyVal) :
    (l.flatMap fun v =>
      match v with
      | PyVal.str s => f s
      | PyVal.int _ => []
      | PyVal.pylist => []) = (strsOf l).flatMap f := by
  induction l with
  | nil => rfl
  | cons v t ih =>
    cases v with
    | str s => simp [List.flatMap_cons, strsOf, ih]
    | int n => simp [List.flatMap_cons, strsOf, ih]
    | pylist => simp [List.flatMap_cons, strsOf, ih]

lemma containsStr_eq (l : List PyVal) (s : String) :
    containsStr l s = (strsOf l).contains s := by
  induction l with
  | nil => rfl
  | cons v t ih =>
    cases v with
    | str tst =>
      calc containsStr (PyVal.str tst :: t) s
          = (s == tst || containsStr t s) := rfl
        _ = (s == tst || (strsOf t).contains s) := by rw [ih]
        _ = (strsOf (PyVal.str tst :: t)).contains s := rfl
    | int n =>
      calc containsStr (PyVal.int n :: t) s
          = (false || containsStr t s) := rfl
        _ = containsStr t s := by simp
        _ = (strsOf t).contains s := ih
    | pylist =>
      calc containsStr (PyVal.pylist :: t) s
          = (false || containsStr t s) := rfl
        _ = containsStr t s := by simp
        _ = (strsOf t).contains s := ih

lemma innerGeneticE_ok (entry : List (String × GeneticEntry)) (m : String)
    (meds : List PyVal) (h : ∀ v ∈ meds, v.hashable = true) :
    innerGeneticE entry m meds = Except.ok ((strsOf meds).flatMap fun d =>
      match entry.lookup d with
      | some info => [fmtGeneticAlert m d info]
      | none => []) := by
  induction meds with
  | nil => rfl
  | cons med rest ih =>
    have hrest : ∀ v ∈ rest, v.hashable = true := fun v hv => h v (List.mem_cons_of_mem _ hv)
    cases med with
    | str d =>
      rw [innerGeneticE, ih hrest]
      cases hlk : entry.lookup d <;> simp [hlk, strsOf, List.flatMap_cons]
    | int n =>
      rw [innerGeneticE, ih hrest]
      simp [strsOf, List.flatMap_cons]
    | pylist =>
      exact absurd (h _ (List.mem_cons_self _ _)) (by simp [PyVal.hashable])

lemma check_genetic_alertsE_ok (gi meds : List PyVal)
    (hg : ∀ v ∈ gi, v.hashable = true) (hm : ∀ v ∈ meds, v.hashable = true) :
    check_genetic_alertsE gi meds =
      Except.ok (check_genetic_alerts (strsOf gi) (strsOf meds)) := by
  induction gi with
  | nil => rfl
  | cons marker rest ih =>
    have hrest : ∀ v ∈ rest, v.hashable = true := fun v hv => hg v (List.mem_cons_of_mem _ hv)
    cases marker with
    | str m =>
      rw [check_genetic_alertsE]
      cases hlk : GENETIC_ALERTS.lookup m with
      | some entry =>
        dsimp only
        rw [innerGeneticE_ok entry m meds hm, ih hrest]
        simp [check_genetic_alerts, strsOf, List.flatMap_cons, hlk]
      | none =>
        rw [ih hrest]
        simp [check_genetic_alerts, strsOf, List.flatMap_cons, hlk]
    | int n =>
      rw [check_genetic_alertsE, ih hrest]
      simp [check_genetic_alerts, strsOf, List.flatMap_cons]
    | pylist =>
      exact absurd (hg _ (List.mem_cons_self _ _)) (by simp [PyVal.hashable])

lemma innerAllergy_eq (a : String) (e : AllergyEntry) (meds : List PyVal) :
    innerAllergy a e meds = (strsOf meds).flatMap fun d =>
      (if e.medications.contains d then [fmtAllergyAlert a d e] else []) ++
      (if e.cross_reactivity.contains d then [fmtCrossAlert a d] else []) :=
  flatMap_match_strs _ meds

lemma check_allergy_alertsE_ok (al meds : List PyVal)
    (ha : ∀ v ∈ al, v.hashable = true) :
    check_allergy_alertsE al meds =
      Except.ok (check_allergy_alerts (strsOf al) (strsOf meds)) := by
  induction al with
  | nil => rfl
  | cons allergy rest ih =>
    have hrest : ∀ v ∈ rest, v.hashable = true := fun v hv => ha v (List.mem_cons_of_mem _ hv)
    cases allergy with
    | str a =>
      rw [check_allergy_alertsE]
      cases hlk : ALLERGY_ALERTS.lookup a with
      | some e =>
        rw [ih hrest]
        dsimp only
        rw [innerAllergy_eq]
        simp [check_allergy_alerts, strsOf, List.flatMap_cons, hlk]
      | none =>
        rw [ih hrest]
        simp [check_allergy_alerts, strsOf, List.flatMap_cons, hlk]
    | int n =>
      rw [check_allergy_alertsE, ih hrest]
      simp [check_allergy_alerts, strsOf, List.flatMap_cons]
    | pylist =>
      exact absurd (ha _ (List.mem_cons_self _ _)) (by simp [PyVal.hashable])

lemma check_drug_interactionsE_ok (meds : List PyVal)
    (hm : ∀ v ∈ meds, v.hashable = true) :
    check_drug_interactionsE meds =
      Except.ok (check_drug_interactions (strsOf meds)) := by
  rw [check_drug_interactionsE]
  have hall : meds.all PyVal.hashable = true := by
    rw [List.all_eq_true]
    exact hm
  rw [if_pos hall, check_drug_interactions]
  simp only [DRUG_INTERACTIONS, List.flatMap_cons, List.flatMap_nil]
  rw [containsStr_eq, containsStr_eq, containsStr_eq, containsStr_eq]

lemma innerComorb_eq (c : String) (info : ComorbidityEntry) (meds : List PyVal) :
    innerComorb c info meds = (strsOf meds).flatMap fun d =>
      if info.medications.contains d then [fmtComorbidityAlert c d info] else [] :=
  flatMap_match_strs _ meds

lemma comorbidityPhaseE_ok (com meds : List PyVal)
    (hc : ∀ v ∈ com, v.hashable = true) :
    comorbidityPhaseE com meds =
      Except.ok (comorbidityPhase (strsOf com) (strsOf meds)) := by
  induction com with
  | nil => rfl
  | cons comorb rest ih =>
    have hrest : ∀ v ∈ rest, v.hashable = true := fun v hv => hc v (List.mem_cons_of_mem _ hv)
    cases comorb with
    | str c =>
      rw [comorbidityPhaseE]
      cases hlk : COMORBIDITY_ALERTS.lookup c with
      | some info =>
        rw [ih hrest]
        dsimp only
        rw [innerComorb_eq]
        simp [comorbidityPhase, strsOf, List.flatMap_cons, hlk]
      | none =>
        rw [ih hrest]
        simp [comorbidityPhase, strsOf, List.flatMap_cons, hlk]
    | int n =>
      rw [comorbidityPhaseE, ih hrest]
      simp [comorbidityPhase, strsOf, List.flatMap_cons]
    | pylist =>
      exact absurd (hc _ (List.mem_cons_self _ _)) (by simp [PyVal.hashable])

lemma agePhaseP_eq (meds : List PyVal) (age : Int) :
    agePhaseP meds age = agePhase (strsOf meds) age := by
  rw [agePhaseP, agePhase]
  by_cases ha : (65 : Int) ≤ age
  · rw [if_pos ha, if_pos ha]
    have hl : COMORBIDITY_ALERTS.lookup "elderly" = some elderlyEntry := rfl
    simp only [hl]
    exact flatMap_match_strs _ meds
  · rw [if_neg ha, if_neg ha]

lemma check_comorbidity_alertsE_ok (com meds : List PyVal) (age : Int)
    (hc : ∀ v ∈ com, v.hashable = true) :
    check_comorbidity_alertsE com meds age =
      Except.ok (check_comorbidity_alerts (strsOf com) (strsOf meds) age) := by
  rw [check_comorbidity_alertsE, comorbidityPhaseE_ok com meds hc, agePhaseP_eq]
  rfl


lemma innerGeneticE_error_eq (entry : List (String × GeneticEntry)) (m : String)
    (meds : List PyVal) (e : String) (h : innerGeneticE entry m meds = Except.error e) :
    e = "TypeError" := by
  induction meds with
  | nil => simp [innerGeneticE] at h
  | cons med rest ih =>
    cases med with
    | str d =>
      rw [innerGeneticE] at h
      cases hr : innerGeneticE entry m rest with
      | error e2 =>
        rw [hr] at h
        dsimp only at h
        injection h with h2
        subst h2
        exact ih hr
      | ok more =>
        rw [hr] at h
        dsimp only at h
        cases hlk : entry.lookup d <;> simp [hlk] at h
    | int n =>
      rw [innerGeneticE] at h
      exact ih h
    | pylist =>
      rw [innerGeneticE] at h
      injection h with h2
      exact h2.symm

lemma check_genetic_alertsE_error_eq (gi meds : List PyVal) (e : String)
    (h : check_genetic_alertsE gi meds = Except.error e) : e = "TypeError" := by
  induction gi with
  | nil => simp [check_genetic_alertsE] at h
  | cons marker rest ih =>
    cases marker with
    | str m =>
      rw [check_genetic_alertsE] at h
      cases hlk : GENETIC_ALERTS.lookup m with
      | some entry =>
        rw [hlk] at h
        dsimp only at h
        cases hi : innerGeneticE entry m meds with
        | error e2 =>
          rw [hi] at h
          dsimp only at h
          injection h with h2
          rw [← h2]
          exact innerGeneticE_error_eq entry m meds e2 hi
        | ok here =>
          rw [hi] at h
          dsimp only at h
          cases hr : check_genetic_alertsE rest meds with
          | error e2 =>
            rw [hr] at h
            dsimp only at h
            injection h with h2
            subst h2
            exact ih hr
          | ok more =>
            rw [hr] at h
            simp at h
      | none =>
        rw [hlk] at h
        exact ih h
    | int n =>
      rw [check_genetic_alertsE] at h
      exact ih h
    | pylist =>
      rw [check_genetic_alertsE] at h
      injection h with h2
      exact h2.symm

lemma check_allergy_alertsE_error_eq (al meds : List PyVal) (e : String)
    (h : check_allergy_alertsE al meds = Except.error e) : e = "TypeError" := by
  induction al with
  | nil => simp [check_allergy_alertsE] at h
  | cons allergy rest ih =>
    cases allergy with
    | str a =>
      rw [check_allergy_alertsE] at h
      cases hlk : ALLERGY_ALERTS.lookup a with
      | some en =>
        rw [hlk] at h
        dsimp only at h
        cases hr : check_allergy_alertsE rest meds with
        | error e2 =>
          rw [hr] at h
          dsimp only at h
          injection h with h2
          subst h2
          exact ih hr
        | ok more =>
          rw [hr] at h
          simp at h
      | none =>
        rw [hlk] at h
        exact ih h
    | int n =>
      rw [check_allergy_alertsE] at h
      exact ih h
    | pylist =>
      rw [check_allergy_alertsE] at h
      injection h with h2
      exact h2.symm

lemma check_drug_interactionsE_error_eq (meds : List PyVal) (e : String)
    (h : check_drug_interactionsE meds = Except.error e) : e = "TypeError" := by
  rw [check_drug_interactionsE] at h
  by_cases hall : meds.all PyVal.hashable = true
  · rw [if_pos hall] at h
    simp at h
  · rw [if_neg hall] at h
    injection h with h2
    exact h2.symm

lemma comorbidityPhaseE_error_eq (com meds : List PyVal) (e : String)
    (h : comorbidityPhaseE com meds = Except.error e) : e = "TypeError" := by
  induction com with
  | nil => simp [comorbidityPhaseE] at h
  | cons comorb rest ih =>
    cases comorb with
    | str c =>
      rw [comorbidityPhaseE] at h
      cases hlk : COMORBIDITY_ALERTS.lookup c with
      | some info =>
        rw [hlk] at h
        dsimp only at h
        cases hr : comorbidityPhaseE rest meds with
        | error e2 =>
          rw [hr] at h
          dsimp only at h
          injection h with h2
          subst h2
          exact ih hr
        | ok more =>
          rw [hr] at h
          simp at h
      | none =>
        rw [hlk] at h
        exact ih h
    | int n =>
      rw [comorbidityPhaseE] at h
      exact ih h
    | pylist =>
      rw [comorbidityPhaseE] at h
      injection h with h2
      exact h2.symm

lemma check_comorbidity_alertsE_error_eq (com meds : List PyVal) (age : Int) (e : String)
    (h : check_comorbidity_alertsE com meds age = Except.error e) : e = "TypeError" := by
  rw [check_comorbidity_alertsE] at h
  cases hp : comorbidityPhaseE com meds with
  | error e2 =>
    rw [hp] at h
    dsimp only at h
    injection h with h2
    rw [← h2]
    exact comorbidityPhaseE_error_eq com meds e2 hp
  | ok p1 =>
    rw [hp] at h
    simp at h


lemma check_genetic_alertsE_err (gi meds : List PyVal)
    (h : ∃ v ∈ gi, v.hashable = false) :
    check_genetic_alertsE gi meds = Except.error "TypeError" := by
  induction gi with
  | nil =>
    rcases h with ⟨v, hv, _⟩
    exact absurd hv (List.not_mem_nil v)
  | cons marker rest ih =>
    rcases h with ⟨v, hv, hbad⟩
    rcases List.mem_cons.mp hv with heq | hv2
    · rw [heq] at hbad
      cases marker with
      | str s => simp [PyVal.hashable] at hbad
      | int n => simp [PyVal.hashable] at hbad
      | pylist => rw [check_genetic_alertsE]
    · have hrec := ih ⟨v, hv2, hbad⟩
      cases marker with
      | pylist => rw [check_genetic_alertsE]
      | int n =>
        rw [check_genetic_alertsE]
        exact hrec
      | str m =>
        rw [check_genetic_alertsE]
        cases hlk : GENETIC_ALERTS.lookup m with
        | none =>
          dsimp only
          exact hrec
        | some entry =>
          dsimp only
          cases hi : innerGeneticE entry m meds with
          | error e2 =>
            dsimp only
            rw [innerGeneticE_error_eq entry m meds e2 hi]
          | ok here =>
            dsimp only
            rw [hrec]

lemma check_allergy_alertsE_err (al meds : List PyVal)
    (h : ∃ v ∈ al, v.hashable = false) :
    check_allergy_alertsE al meds = Except.error "TypeError" := by
  induction al with
  | nil =>
    rcases h with ⟨v, hv, _⟩
    exact absurd hv (List.not_mem_nil v)
  | cons allergy rest ih =>
    rcases h with ⟨v, hv, hbad⟩
    rcases List.mem_cons.mp hv with heq | hv2
    · rw [heq] at hbad
      cases allergy with
      | str s => simp [PyVal.hashable] at hbad
      | int n => simp [PyVal.hashable] at hbad
      | pylist => rw [check_allergy_alertsE]
    · have hrec := ih ⟨v, hv2, hbad⟩
      cases allergy with
      | pylist => rw [check_allergy_alertsE]
      | int n =>
        rw [check_allergy_alertsE]
        exact hrec
      | str a =>
        rw [check_allergy_alertsE]
        cases hlk : ALLERGY_ALERTS.lookup a with
        | none =>
          dsimp only
          exact hrec
        | some e =>
          dsimp only
          rw [hrec]

lemma check_drug_interactionsE_err (meds : List PyVal)
    (h : ∃ v ∈ meds, v.hashable = false) :
    check_drug_interactionsE meds = Except.error "TypeError" := by
  rw [check_drug_interactionsE]
  have hall : ¬ meds.all PyVal.hashable = true := by
    rw [List.all_eq_true]
    rcases h with ⟨v, hv, hbad⟩
    intro hforall
    have := hforall v hv
    rw [this] at hbad
    simp at hbad
  rw [if_neg hall]

lemma comorbidityPhaseE_err (com meds : List PyVal)
    (h : ∃ v ∈ com, v.hashable = false) :
    comorbidityPhaseE com meds = Except.error "TypeError" := by
  induction com with
  | nil =>
    rcases h with ⟨v, hv, _⟩
    exact absurd hv (List.not_mem_nil v)
  | cons comorb rest ih =>
    rcases h with ⟨v, hv, hbad⟩
    rcases List.mem_cons.mp hv with heq | hv2
    · rw [heq] at hbad
      cases comorb with
      | str s => simp [PyVal.hashable] at hbad
      | int n => simp [PyVal.hashable] at hbad
      | pylist => rw [comorbidityPhaseE]
    · have hrec := ih ⟨v, hv2, hbad⟩
      cases comorb with
      | pylist => rw [comorbidityPhaseE]
      | int n =>
        rw [comorbidityPhaseE]
        exact hrec
      | str c =>
        rw [comorbidityPhaseE]
        cases hlk : COMORBIDITY_ALERTS.lookup c with
        | none =>
          dsimp only
          exact hrec
        | some info =>
          dsimp only
          rw [hrec]

lemma check_comorbidity_alertsE_err (com meds : List PyVal) (age : Int)
    (h : ∃ v ∈ com, v.hashable = false) :
    check_comorbidity_alertsE com meds age = Except.error "TypeError" := by
  rw [check_comorbidity_alertsE, comorbidityPhaseE_err com meds h]

/-- C4 (amended): non-string elements in the patient collections never
match a knowledge-base key and never yield an alert.  When every
element is hashable, the non-strings are silently skipped and
evaluation returns, without error, exactly the alerts of the string
elements of each collection; when some element is unhashable, the
evaluation raises TypeError, not a ValidationError.  A record with an
absent medications field evaluates like one carrying an empty
collection. -/
theorem nonstring_elements_ignored :
    ∀ (gi al meds com : List PyVal) (age : Int),
      ((∀ v ∈ gi, v.hashable = true) → (∀ v ∈ al, v.hashable = true) →
        (∀ v ∈ meds, v.hashable = true) → (∀ v ∈ com, v.hashable = true) →
        generate_contextual_alertsE ⟨some gi, some al, some meds, some com, some age⟩ =
          Except.ok (generate_contextual_alerts
            ⟨some (strsOf gi), some (strsOf al), some (strsOf meds), some (strsOf com),
              some age⟩)) ∧
      (((∃ v ∈ gi, v.hashable = false) ∨ (∃ v ∈ al, v.hashable = false) ∨
        (∃ v ∈ meds, v.hashable = false) ∨ (∃ v ∈ com, v.hashable = false)) →
        generate_contextual_alertsE ⟨some gi, some al, some meds, some com, some age⟩ =
          Except.error "TypeError") ∧
      generate_contextual_alertsE ⟨some gi, some al, none, some com, some age⟩ =
        generate_contextual_alertsE ⟨some gi, some al, some [], some com, some age⟩ := by
  intro gi al meds com age
  refine ⟨?_, ?_, rfl⟩
  · intro hg ha hm hc
    rw [generate_contextual_alertsE]
    dsimp only [Option.getD]
    rw [check_genetic_alertsE_ok gi meds hg hm]
    dsimp only
    rw [check_allergy_alertsE_ok al meds ha]
    dsimp only
    rw [check_drug_interactionsE_ok meds hm]
    dsimp only
    rw [check_comorbidity_alertsE_ok com meds age hc]
    rfl
  · intro hbad
    rw [generate_contextual_alertsE]
    dsimp only [Option.getD]
    rcases hbad with hg | hrest
    · rw [check_genetic_alertsE_err gi meds hg]
    · cases hgr : check_genetic_alertsE gi meds with
      | error e =>
        dsimp only
        rw [check_genetic_alertsE_error_eq gi meds e hgr]
      | ok g =>
        dsimp only
        rcases hrest with ha | hrest2
        · rw [check_allergy_alertsE_err al meds ha]
        · cases har : check_allergy_alertsE al meds with
          | error e =>
            dsimp only
            rw [check_allergy_alertsE_error_eq al meds e har]
          | ok a2 =>
            dsimp only
            rcases hrest2 with hm | hc
            · rw [check_drug_interactionsE_err meds hm]
            · cases hir : check_drug_interactionsE meds with
              | error e =>
                dsimp only
                rw [check_drug_interactionsE_error_eq meds e hir]
              | ok i =>
                dsimp only
                rw [check_comorbidity_alertsE_err com meds age hc]

/-- C4 witness: the amended theorem at two concrete records, one whose
medication list holds the number 42 next to clopidogrel, evaluating
without error to the alerts of the string elements, and one holding an
unhashable element, raising TypeError. -/
theorem nonstring_elements_ignored_witness :
    generate_contextual_alertsE
      ⟨some [PyVal.str "CYP2C19 Poor Metabolizer"], some [],
        some [PyVal.int 42, PyVal.str "clopidogrel"], some [], some 70⟩ =
      Except.ok (generate_contextual_alerts
        ⟨some ["CYP2C19 Poor Metabolizer"], some [], some ["clopidogrel"], some [],
          some 70⟩) ∧
    generate_contextual_alertsE
      ⟨some [], some [], some [PyVal.pylist, PyVal.str "warfarin"], some [], some 0⟩ =
      Except.error "TypeError" :=
  ⟨(nonstring_elements_ignored [PyVal.str "CYP2C19 Poor Metabolizer"] []
      [PyVal.int 42, PyVal.str "clopidogrel"] [] 70).1 (by decide) (by decide) (by decide)
      (by decide),
   (nonstring_elements_ignored [] [] [PyVal.pylist, PyVal.str "warfarin"] [] 0).2.1
      (Or.inr (Or.inr (Or.inl ⟨PyVal.pylist, by decide, by decide⟩)))⟩

end ClinicalAlerts
